import Mathlib

/-!
Verification of the LLM Response Interpretation & Orchestration Engine.

This file is a shallow embedding of the core logic of the study-coach
repository: the structured extractor (`_parse_json_array` in
`api-gateway/main.py` and the inline parse in
`backend/services/ai_service.py`), the completion client (`_call_ollama`
in both variants), the prompt sizing policy, and the task orchestrator
(`_generate_quiz_with_llm` / `generate_quiz` in the gateway,
`generate_content` in the backend).

Python strings are modelled as `List Char` / `String`; `json.loads` is
modelled by an executable recursive-descent parser `jsonLoads` over the
JSON grammar that Python's `json` module accepts (numbers are kept as
their source lexemes, so no floating point arithmetic is modelled);
exceptions are modelled with `Except` / `Option`; each `await` of an
external call is modelled through an oracle giving that call's outcome.
-/

/-- The whitespace characters stripped by Python's `str.strip()` and
matched by the regex class `\s` (space, tab, newline, carriage return,
vertical tab, form feed). -/
def pyWsChar (c : Char) : Bool :=
  c = ' ' || c = '\t' || c = '\n' || c = '\r' || c = Char.ofNat 11 || c = Char.ofNat 12

/-- Python `str.strip()`: drop leading and trailing whitespace. -/
def pyStrip (s : List Char) : List Char :=
  ((s.dropWhile pyWsChar).reverse.dropWhile pyWsChar).reverse

/-- One pass of Python `re.sub(pat + r'\s*', '', s)` for a literal pattern
`pat`: scanning left to right, every occurrence of `pat` followed by a
greedy run of whitespace is deleted.  Fueled recursion; the fuel is the
length of the text, which suffices because every step consumes at least
one character. -/
def reSubDel (pat : List Char) : Nat → List Char → List Char
  | 0, s => s
  | _ + 1, [] => []
  | n + 1, c :: cs =>
    if pat.isPrefixOf (c :: cs) && !pat.isEmpty then
      reSubDel pat n (((c :: cs).drop pat.length).dropWhile pyWsChar)
    else
      c :: reSubDel pat n cs

/-- `re.sub(pat + r'\s*', '', s)` for a literal pattern `pat`. -/
def reSub (pat s : List Char) : List Char :=
  reSubDel pat s.length s

/-- The response-cleaning step of `_parse_json_array`
(`api-gateway/main.py` lines 558-564): strip the response; if the
stripped text begins with a code fence ````` ``` `````, globally delete
every occurrence of ````` ```json ````` and ````` ``` ````` (each with
trailing whitespace) and strip again; otherwise leave the stripped text
unchanged. -/
def cleanResponse (response : String) : List Char :=
  let cleaned := pyStrip response.toList
  if ("```".toList).isPrefixOf cleaned then
    pyStrip (reSub ("```".toList) (reSub ("```json".toList) cleaned))
  else
    cleaned

/-- Python `s.find(c)`: index of the first occurrence, if any. -/
def pyFindIdx (c : Char) (s : List Char) : Option Nat :=
  s.findIdx? (· = c)

/-- Python `s.rfind(c)`: index of the last occurrence, if any. -/
def pyRFindIdx (c : Char) (s : List Char) : Option Nat :=
  (s.reverse.findIdx? (· = c)).map (fun i => s.length - 1 - i)

/-- JSON values as Python's `json.loads` produces them.  A number is kept
as its source lexeme (e.g. `"0"`, `"-1.5e3"`): the claims never depend on
numeric arithmetic, only on which records were recovered, so modelling
IEEE semantics is unnecessary.  An object is the ordered list of its
members as written. -/
inductive Json where
  | null : Json
  | bool (b : Bool) : Json
  | num (lexeme : String) : Json
  | str (s : String) : Json
  | arr (elems : List Json) : Json
  | obj (members : List (String × Json)) : Json

/-- The whitespace accepted between JSON tokens by Python's `json`
module (space, tab, newline, carriage return). -/
def jsonWsChar (c : Char) : Bool :=
  c = ' ' || c = '\t' || c = '\n' || c = '\r'

/-- Skip inter-token JSON whitespace. -/
def skipWs (s : List Char) : List Char :=
  s.dropWhile jsonWsChar

/-- Value of a hexadecimal digit. -/
def hexVal (c : Char) : Option Nat :=
  if '0' ≤ c ∧ c ≤ '9' then some (c.toNat - 48)
  else if 'a' ≤ c ∧ c ≤ 'f' then some (c.toNat - 87)
  else if 'A' ≤ c ∧ c ≤ 'F' then some (c.toNat - 55)
  else none

/-- Single-character JSON string escapes. -/
def escChar (c : Char) : Option Char :=
  if c = '"' then some '"'
  else if c = '\\' then some '\\'
  else if c = '/' then some '/'
  else if c = 'b' then some (Char.ofNat 8)
  else if c = 'f' then some (Char.ofNat 12)
  else if c = 'n' then some '\n'
  else if c = 'r' then some '\r'
  else if c = 't' then some '\t'
  else none

/-- Parse the body of a JSON string after the opening quote, returning
the decoded content and the remainder after the closing quote.  Like
Python's strict decoder, unescaped control characters are rejected. -/
def parseStringBody : Nat → List Char → Option (List Char × List Char)
  | 0, _ => none
  | _ + 1, [] => none
  | n + 1, c :: rest =>
    if c = '"' then some ([], rest)
    else if c = '\\' then
      match rest with
      | 'u' :: h1 :: h2 :: h3 :: h4 :: rest2 =>
        match hexVal h1, hexVal h2, hexVal h3, hexVal h4 with
        | some a, some b, some c3, some d =>
          (parseStringBody n rest2).map
            (fun p => (Char.ofNat (((a * 16 + b) * 16 + c3) * 16 + d) :: p.1, p.2))
        | _, _, _, _ => none
      | e :: rest2 =>
        match escChar e with
        | some ch => (parseStringBody n rest2).map (fun p => (ch :: p.1, p.2))
        | none => none
      | [] => none
    else if c.toNat < 32 then none
    else (parseStringBody n rest).map (fun p => (c :: p.1, p.2))

/-- Lex a JSON number starting at the head of `s`, returning its lexeme
and the remainder.  Follows the `json` module's number regex
`(-?(?:0|[1-9]\d*))(\.\d+)?([eE][-+]?\d+)?`: an ill-formed fraction or
exponent is simply not consumed. -/
def parseNumber (s : List Char) : Option (List Char × List Char) :=
  let sgn : List Char × List Char :=
    match s with
    | '-' :: r => (['-'], r)
    | _ => ([], s)
  match sgn.2 with
  | [] => none
  | c :: rest =>
    if c.isDigit then
      let ipr : List Char × List Char :=
        if c = '0' then ([c], rest)
        else (sgn.2.takeWhile Char.isDigit, sgn.2.dropWhile Char.isDigit)
      let fpr : List Char × List Char :=
        match ipr.2 with
        | '.' :: r =>
          let fd := r.takeWhile Char.isDigit
          if fd.isEmpty then ([], ipr.2) else ('.' :: fd, r.dropWhile Char.isDigit)
        | _ => ([], ipr.2)
      let epr : List Char × List Char :=
        match fpr.2 with
        | e :: r =>
          if e = 'e' ∨ e = 'E' then
            let sgr : List Char × List Char :=
              match r with
              | c2 :: r2 => if c2 = '+' ∨ c2 = '-' then ([c2], r2) else ([], r)
              | [] => ([], r)
            let ed := sgr.2.takeWhile Char.isDigit
            if ed.isEmpty then ([], fpr.2)
            else (e :: (sgr.1 ++ ed), sgr.2.dropWhile Char.isDigit)
          else ([], fpr.2)
        | [] => ([], fpr.2)
      some (sgn.1 ++ ipr.1 ++ fpr.1 ++ epr.1, epr.2)
    else none

mutual

/-- Recursive-descent parser for one JSON value, modelling what Python's
`json.loads` accepts (including the non-standard `NaN` / `Infinity`
constants it allows by default).  Returns the value and the unconsumed
remainder.  Fueled; every recursive call strictly follows consumption of
at least one character, so fuel `length + 1` always suffices. -/
def parseValue : Nat → List Char → Option (Json × List Char)
  | 0, _ => none
  | n + 1, s =>
    match skipWs s with
    | [] => none
    | c :: rest =>
      if c = '[' then
        match skipWs rest with
        | ']' :: r => some (.arr [], r)
        | _ =>
          match parseValue n rest with
          | some (v, r) => (parseArrayTail n r).map (fun p => (.arr (v :: p.1), p.2))
          | none => none
      else if c = '{' then
        match skipWs rest with
        | '}' :: r => some (.obj [], r)
        | _ =>
          match parseMember n rest with
          | some (kv, r) => (parseObjTail n r).map (fun p => (.obj (kv :: p.1), p.2))
          | none => none
      else if c = '"' then
        (parseStringBody (rest.length + 1) rest).map (fun p => (.str (String.mk p.1), p.2))
      else if ("true".toList).isPrefixOf (c :: rest) then some (.bool true, rest.drop 3)
      else if ("false".toList).isPrefixOf (c :: rest) then some (.bool false, rest.drop 4)
      else if ("null".toList).isPrefixOf (c :: rest) then some (.null, rest.drop 3)
      else if ("NaN".toList).isPrefixOf (c :: rest) then some (.num "NaN", rest.drop 2)
      else if ("Infinity".toList).isPrefixOf (c :: rest) then some (.num "Infinity", rest.drop 7)
      else if ("-Infinity".toList).isPrefixOf (c :: rest) then
        some (.num "-Infinity", rest.drop 8)
      else
        (parseNumber (c :: rest)).map (fun p => (.num (String.mk p.1), p.2))

/-- Elements of an array after the first one: `,` value ... `]`. -/
def parseArrayTail : Nat → List Char → Option (List Json × List Char)
  | 0, _ => none
  | n + 1, s =>
    match skipWs s with
    | ']' :: r => some ([], r)
    | ',' :: r =>
      match parseValue n r with
      | some (v, r2) => (parseArrayTail n r2).map (fun p => (v :: p.1, p.2))
      | none => none
    | _ => none

/-- One `"key": value` member of an object. -/
def parseMember : Nat → List Char → Option ((String × Json) × List Char)
  | 0, _ => none
  | n + 1, s =>
    match skipWs s with
    | '"' :: r =>
      match parseStringBody (r.length + 1) r with
      | some (cs, r1) =>
        match skipWs r1 with
        | ':' :: r2 => (parseValue n r2).map (fun p => ((String.mk cs, p.1), p.2))
        | _ => none
      | none => none
    | _ => none

/-- Members of an object after the first one: `,` member ... `}`. -/
def parseObjTail : Nat → List Char → Option (List (String × Json) × List Char)
  | 0, _ => none
  | n + 1, s =>
    match skipWs s with
    | '}' :: r => some ([], r)
    | ',' :: r =>
      match parseMember n r with
      | some (kv, r2) => (parseObjTail n r2).map (fun p => (kv :: p.1, p.2))
      | none => none
    | _ => none

end

/-- Python `json.loads` on a character list: parse exactly one JSON value
with only whitespace around it; anything else raises `JSONDecodeError`,
modelled by `none`. -/
def jsonLoads (s : List Char) : Option Json :=
  match parseValue (s.length + 1) s with
  | some (v, r) => if (skipWs r).isEmpty then some v else none
  | none => none

/-- The `cleaned[json_start:json_end]` window of `_parse_json_array`
(`api-gateway/main.py` lines 567-570): the substring from the first `[`
to the last `]` inclusive, provided both exist and
`json_end > json_start` as in the source. -/
def windowOf (cleaned : List Char) : Option (List Char) :=
  match pyFindIdx '[' cleaned, pyRFindIdx ']' cleaned with
  | some i, some j =>
    if i < j + 1 then some ((cleaned.drop i).take (j + 1 - i)) else none
  | _, _ => none

/-- Python `re.findall(r'\x7b[^\x7b\x7d]*\x7d', s)` (the object-salvage
scan of `_parse_json_array`, line 584): all non-overlapping leftmost
matches of a `\x7b...\x7d` block containing no nested braces.  Fueled by
the text length. -/
def findFlatObjects : Nat → List Char → List (List Char)
  | 0, _ => []
  | _ + 1, [] => []
  | n + 1, c :: cs =>
    if c = '{' then
      let run := cs.takeWhile (fun d => !(d == '{' || d == '}'))
      match cs.drop run.length with
      | '}' :: tail => ('{' :: (run ++ ['}'])) :: findFlatObjects n tail
      | _ => findFlatObjects n cs
    else
      findFlatObjects n cs

/-- All flat-object substrings of a raw response, in order of
appearance. -/
def pyFindAllFlatObjects (response : String) : List (List Char) :=
  findFlatObjects response.toList.length response.toList

/-- The salvage fallback of `_parse_json_array` (lines 581-599): parse
every flat-object substring of the raw response independently and keep
the ones that parse, in order; substrings that fail to parse are
silently dropped. -/
def salvageObjects (response : String) : List Json :=
  (pyFindAllFlatObjects response).filterMap jsonLoads

/-- `_parse_json_array` (`api-gateway/main.py` lines 553-599).  The
`try` block: clean the response; if the first-`[`-to-last-`]` window
exists, parse it (a failure raises `JSONDecodeError`); otherwise parse
the whole cleaned text directly, returning it if it is a list and `[]`
if it is some other JSON value.  The `except` block: on a decode error,
fall back to salvaging flat objects from the raw response (returning
`[]` when none parse).  The result is the Python return value; the
function never lets an exception escape. -/
def parseJsonArrayFn (response : String) : Json :=
  let cleaned := cleanResponse response
  let attempt : Option Json :=
    match windowOf cleaned with
    | some w => jsonLoads w
    | none =>
      match jsonLoads cleaned with
      | some v =>
        some (match v with
          | .arr xs => .arr xs
          | _ => .arr [])
      | none => none
  match attempt with
  | some v => v
  | none => .arr (salvageObjects response)

/-- `_parse_json_array`'s result viewed as the list of records the
callers iterate over.  The window branch always yields an array because
the window starts at `[`; the default case is unreachable. -/
def parseJsonArrayL (response : String) : List Json :=
  match parseJsonArrayFn response with
  | .arr xs => xs
  | _ => []

/-- The parse step of `AIService.generate_flashcards`
(`backend/services/ai_service.py` lines 88-105): take the first-`[`-to-
last-`]` window of the raw response (no fence cleaning) or the whole
response, parse it with `json.loads` and return the value unchanged; on
`JSONDecodeError`, return the hard-coded fallback list containing one
record whose `front` is the literal text `Content from text` and whose
`back` is the first 200 characters of the response. -/
def backendParseFlashcards (response : String) : Json :=
  let r := response.toList
  let attempt : Option Json :=
    match pyFindIdx '[' r, pyRFindIdx ']' r with
    | some i, some j =>
      if i < j + 1 then jsonLoads ((r.drop i).take (j + 1 - i)) else jsonLoads r
    | _, _ => jsonLoads r
  match attempt with
  | some v => v
  | none =>
    .arr [.obj [("front", .str "Content from text"), ("back", .str (String.mk (r.take 200)))]]

/-- Classified failures of a completion call (§4.2 of the design):
timeout, connection failure, other network failure, non-success HTTP
status, or an empty response body. -/
inductive CallFailure where
  | timeout : CallFailure
  | connectError : CallFailure
  | requestError : CallFailure
  | httpStatus (code : Nat) : CallFailure
  | emptyResponse : CallFailure
  deriving DecidableEq

/-- Outcome of the underlying HTTP exchange with the Ollama `/api/generate`
endpoint: a transport failure, or a completed exchange carrying the HTTP
status code and the `response` field of the JSON body (defaulted to `""`
by `result.get("response", "")`). -/
inductive HttpOutcome where
  | timeout : HttpOutcome
  | connectError : HttpOutcome
  | requestError : HttpOutcome
  | status (code : Nat) (responseField : String) : HttpOutcome

/-- `_call_ollama` of the gateway (`api-gateway/main.py` lines 487-550):
transport failures map to classified exceptions; `raise_for_status`
turns a non-2xx status into an error; otherwise the `response` field is
stripped and an empty result raises (`LLM returned empty response`)
rather than being returned as success. -/
def gatewayCallOllama (h : HttpOutcome) : Except CallFailure String :=
  match h with
  | .timeout => .error .timeout
  | .connectError => .error .connectError
  | .requestError => .error .requestError
  | .status code body =>
    if code < 200 || 300 ≤ code then .error (.httpStatus code)
    else
      let t := pyStrip body.toList
      if t.isEmpty then .error .emptyResponse else .ok (String.mk t)

/-- `AIService._call_ollama` of the backend
(`backend/services/ai_service.py` lines 23-54): same transport and
status handling (all failures are re-raised wrapped in a generic
exception), but the stripped `response` field is returned as success
even when it is empty - there is no empty-response check. -/
def backendCallOllama (h : HttpOutcome) : Except CallFailure String :=
  match h with
  | .timeout => .error .timeout
  | .connectError => .error .connectError
  | .requestError => .error .requestError
  | .status code body =>
    if code < 200 || 300 ≤ code then .error (.httpStatus code)
    else .ok (String.mk (pyStrip body.toList))

/-- The three quiz sub-task kinds decomposed from an `all` request. -/
inductive QuizKind where
  | multiple_choice : QuizKind
  | fill_blank : QuizKind
  | short_answer : QuizKind
  deriving DecidableEq

/-- Observable steps of the orchestrator's interaction with the
completion client.  `issue k` marks the moment the sub-task's
`_call_ollama` coroutine is awaited; `complete k` / `fail k` mark that
await returning a response or raising.  In the source each
`await _call_ollama(...)` completes before the next statement runs, so
the events bracket each call in program order. -/
inductive Event where
  | issue (k : QuizKind) : Event
  | complete (k : QuizKind) : Event
  | fail (k : QuizKind) : Event
  deriving DecidableEq

/-- Message of the exception raised when multiple-choice extraction is
empty (`api-gateway/main.py` line 320). -/
def mcEmptyMsg : String :=
  "Failed to generate multiple choice questions: LLM returned empty or invalid response"

/-- Message of the exception raised when fill-in-the-blank extraction is
empty (line 363). -/
def fbEmptyMsg : String :=
  "Failed to generate fill-in-the-blank questions: LLM returned empty or invalid response"

/-- Message of the exception raised when short-answer extraction is
empty (line 400). -/
def saEmptyMsg : String :=
  "Failed to generate short answer questions: LLM returned empty or invalid response"

/-- Messages of the exceptions `_call_ollama` raises for each classified
failure (`api-gateway/main.py` lines 535-550), without the interpolated
underlying error text. -/
def ollamaFailMsg : CallFailure → String
  | .timeout => "LLM generation timed out after 15 minutes. The model may be too slow. Try using a smaller/faster model or shorter text."
  | .connectError => "Failed to connect to LLM service. Make sure Ollama is running"
  | .requestError => "Failed to connect to LLM service"
  | .httpStatus _ => "LLM service returned error"
  | .emptyResponse => "Failed to generate content with AI: LLM returned empty response - model may not have generated content"

/-- One sub-task of `_generate_quiz_with_llm`: await the completion
call, extract records, and apply that branch's `except` policy.
`propagate` is true when the branch re-raises (always for
multiple-choice; only when the sub-task's kind was the one requested for
the other two).  Returns the raised message or the optional extracted
records (none when the failure was absorbed), with the events of the
call. -/
def subTaskRun (k : QuizKind) (propagate : Bool) (resp : Except CallFailure String)
    (emptyMsg : String) : Except String (Option (List Json)) × List Event :=
  match resp with
  | .error e => ((if propagate then .error (ollamaFailMsg e) else .ok none), [.issue k, .fail k])
  | .ok raw =>
    let parsed := parseJsonArrayL raw
    if parsed.isEmpty then
      ((if propagate then .error emptyMsg else .ok none), [.issue k, .complete k])
    else
      (.ok (some parsed), [.issue k, .complete k])

/-- The result-dictionary entry contributed by one sub-task. -/
def entryOf (name : String) : Option (List Json) → List (String × List Json)
  | some xs => [(name, xs)]
  | none => []

/-- `_generate_quiz_with_llm` (`api-gateway/main.py` lines 259-414).
The oracle gives, per sub-task kind, the outcome of that sub-task's
`_call_ollama` call (the prompts are built deterministically from the
input text, so the oracle abstracts the LLM's response to each
sub-task).  The three branches run one after another, each awaited
before the next begins; a multiple-choice failure re-raises
unconditionally, while fill-blank and short-answer failures re-raise
only when their kind was the one requested.  Finally the aggregate
fails when no sub-task contributed a non-empty record list. -/
def generateQuizWithLLM (quizType : String)
    (oracle : QuizKind → Except CallFailure String) :
    Except String (List (String × List Json)) × List Event :=
  match (if quizType == "multiple_choice" || quizType == "all" then
      subTaskRun .multiple_choice true (oracle .multiple_choice) mcEmptyMsg
    else (.ok none, [])) with
  | (.error m, t1) => (.error m, t1)
  | (.ok o1, t1) =>
    match (if quizType == "fill_blank" || quizType == "all" then
        subTaskRun .fill_blank (quizType == "fill_blank") (oracle .fill_blank) fbEmptyMsg
      else (.ok none, [])) with
    | (.error m, t2) => (.error m, t1 ++ t2)
    | (.ok o2, t2) =>
      match (if quizType == "short_answer" || quizType == "all" then
          subTaskRun .short_answer (quizType == "short_answer") (oracle .short_answer) saEmptyMsg
        else (.ok none, [])) with
      | (.error m, t3) => (.error m, t1 ++ t2 ++ t3)
      | (.ok o3, t3) =>
        let result := entryOf "multiple_choice" o1 ++ entryOf "fill_blank" o2 ++
          entryOf "short_answer" o3
        if result.isEmpty || result.all (fun p => p.2.isEmpty) then
          (.error "Failed to generate any quiz questions. All quiz types failed.",
            t1 ++ t2 ++ t3)
        else
          (.ok result, t1 ++ t2 ++ t3)

/-- Python `str.lower()` (ASCII case folding, which is all the handler
needs). -/
def pyLower (s : String) : String :=
  String.mk (s.toList.map Char.toLower)

/-- The valid `quiz_type` values of the gateway handler
(`api-gateway/main.py` line 168). -/
def validQuizTypes : List String :=
  ["multiple_choice", "fill_blank", "short_answer", "all"]

/-- The `/api/generate_quiz` handler `generate_quiz`
(`api-gateway/main.py` lines 146-200): strip the text and lowercase the
quiz type; reject empty text and unknown types with a 400 before any
LLM call; run `_generate_quiz_with_llm`; wrap its failure as a 500;
reject an empty aggregate or an aggregate with zero total questions
with a 500; otherwise answer with the success payload.  The second
component is the trace of completion-client events (empty when no
external call was made). -/
def generateQuiz (text quizType : String)
    (oracle : QuizKind → Except CallFailure String) :
    Except (Nat × String) Json × List Event :=
  if (pyStrip text.toList).isEmpty then
    (.error (400, "Text input is required"), [])
  else if !(validQuizTypes.contains (pyLower quizType)) then
    (.error (400, "Invalid quiz_type. Must be one of: multiple_choice, fill_blank, short_answer, all"), [])
  else
    match generateQuizWithLLM (pyLower quizType) oracle with
    | (.error m, tr) => (.error (500, "Error generating quiz: " ++ m), tr)
    | (.ok quiz, tr) =>
      if quiz.isEmpty then
        (.error (500, "Quiz generation returned empty result"), tr)
      else
        let total := (quiz.map (fun p => p.2.length)).sum
        if total == 0 then
          (.error (500, "Quiz generation completed but no questions were created"), tr)
        else
          (.ok (.obj [("success", .bool true),
            ("quiz", .obj (quiz.map (fun p => (p.1, Json.arr p.2)))),
            ("message", .str ("Quiz generated successfully with " ++ toString total
              ++ " questions"))]), tr)

/-- The backend's three content-generation services. -/
inductive BKind where
  | flashcards : BKind
  | summary : BKind
  | questions : BKind
  deriving DecidableEq

/-- The `/api/generate-content` handler `generate_content`
(`backend/main.py` lines 130-168).  The oracle gives each service
call's outcome (raised message or produced value).  Empty text raises a
400 inside the `try`, which the handler's own `except Exception` clause
catches and re-wraps as a 500; the content type is never validated:
kinds outside `flashcards`/`summary`/`questions`/`all` simply select no
service and yield a success with empty content.  The second component
lists the service calls made, in order. -/
def generateContent (text contentType : String)
    (boracle : BKind → Except String Json) :
    Except (Nat × String) Json × List BKind :=
  if (pyStrip text.toList).isEmpty then
    (.error (500, "Error generating content: 400: Text input is required"), [])
  else
    let c1 := contentType == "flashcards" || contentType == "all"
    match (if c1 then (boracle .flashcards).map (fun v => [("flashcards", v)]) else .ok []) with
    | .error m => (.error (500, "Error generating content: " ++ m), if c1 then [.flashcards] else [])
    | .ok e1 =>
      let c2 := contentType == "summary" || contentType == "all"
      match (if c2 then (boracle .summary).map (fun v => [("summary", v)]) else .ok []) with
      | .error m =>
        (.error (500, "Error generating content: " ++ m),
          (if c1 then [BKind.flashcards] else []) ++ (if c2 then [BKind.summary] else []))
      | .ok e2 =>
        let c3 := contentType == "questions" || contentType == "all"
        match (if c3 then (boracle .questions).map (fun v => [("questions", v)]) else .ok []) with
        | .error m =>
          (.error (500, "Error generating content: " ++ m),
            (if c1 then [BKind.flashcards] else []) ++ (if c2 then [BKind.summary] else [])
              ++ (if c3 then [BKind.questions] else []))
        | .ok e3 =>
          (.ok (.obj [("success", .bool true),
            ("content", .obj (e1 ++ e2 ++ e3)),
            ("message", .str "Content generated successfully")]),
            (if c1 then [BKind.flashcards] else []) ++ (if c2 then [BKind.summary] else [])
              ++ (if c3 then [BKind.questions] else []))

/-- The `num_questions` string interpolated into the multiple-choice
prompt (`api-gateway/main.py` lines 279-287). -/
def numQuestionsStr (textLength : Nat) : String :=
  if textLength > 10000 then "12-18"
  else if textLength > 5000 then "10-15"
  else if textLength > 3000 then "8-12"
  else "5-8"

/-- The `num_flashcards` string interpolated into the flashcard prompt
(`api-gateway/main.py` lines 454-462). -/
def numFlashcardsStr (textLength : Nat) : String :=
  if textLength > 10000 then "18-22"
  else if textLength > 5000 then "15-18"
  else if textLength > 3000 then "12-15"
  else "8-12"

/-- The record-producing generation kinds with their prompts' target
record counts. -/
inductive GenKind where
  | multiple_choice : GenKind
  | fill_blank : GenKind
  | short_answer : GenKind
  | flashcards : GenKind
  deriving DecidableEq

/-- The target record count communicated to the model for each kind, as
a function of the input text length: banded for multiple-choice (lines
279-287) and flashcards (lines 454-462), the fixed literal `5-7` in the
fill-blank and short-answer prompts (lines 337 and 374). -/
def targetCountStr : GenKind → Nat → String
  | .multiple_choice, n => numQuestionsStr n
  | .fill_blank, _ => "5-7"
  | .short_answer, _ => "5-7"
  | .flashcards, n => numFlashcardsStr n

/-- The sizing band of an input text length: 0 for ≤ 3000 characters,
1 for ≤ 5000, 2 for ≤ 10000, 3 above. -/
def sizeBand (n : Nat) : Nat :=
  if n ≤ 3000 then 0 else if n ≤ 5000 then 1 else if n ≤ 10000 then 2 else 3

/-- The multiple-choice target range of each band, as (low, high). -/
def quizRange : Nat → Nat × Nat
  | 0 => (5, 8)
  | 1 => (8, 12)
  | 2 => (10, 15)
  | _ => (12, 18)

/-- The flashcard target range of each band, as (low, high). -/
def flashRange : Nat → Nat × Nat
  | 0 => (8, 12)
  | 1 => (12, 15)
  | 2 => (15, 18)
  | _ => (18, 22)

/-- Render a (low, high) range the way the prompts spell it. -/
def showRange (p : Nat × Nat) : String :=
  toString p.1 ++ "-" ++ toString p.2

/-- Whether the `try` block of `_parse_json_array` raises
`JSONDecodeError` for a response: the bracket window exists and fails
to parse, or no window exists and the cleaned text fails to parse.
Exactly when this holds, control reaches the salvage fallback. -/
def tryBlockRaises (response : String) : Bool :=
  match windowOf (cleanResponse response) with
  | some w => (jsonLoads w).isNone
  | none => (jsonLoads (cleanResponse response)).isNone

/-- No contiguous substring of `s` parses as JSON: the formal reading of
"text with no parseable JSON at all". -/
def noJsonSubstring (s : List Char) : Bool :=
  s.tails.all (fun t => t.inits.all (fun u => (jsonLoads u).isNone))

/-- Every flat-object substring of the raw response fails to parse. -/
def allFlatObjectsFail (response : String) : Bool :=
  (pyFindAllFlatObjects response).all (fun o => (jsonLoads o).isNone)

/-- Whether an event is the issuing of a sub-task's completion call. -/
def isIssue : Event → Bool
  | .issue _ => true
  | _ => false

/-- A trace in which the sub-tasks' calls were issued together and
awaited jointly: once a call has completed or failed, no further call
is issued. -/
def issuedJointly (tr : List Event) : Bool :=
  (tr.dropWhile isIssue).all (fun e => !isIssue e)

/-- Oracle refuting C1: the multiple-choice response carries no JSON,
while both sibling sub-tasks answer with well-formed record arrays. -/
def oracleC1 : QuizKind → Except CallFailure String
  | .multiple_choice => .ok "The quiz is ready."
  | .fill_blank => .ok "[\x7b\"question\": \"Water is _____.\", \"answer\": \"wet\"\x7d]"
  | .short_answer => .ok "[\x7b\"question\": \"Why?\", \"answer\": \"Because.\"\x7d]"

/-- Oracle on which every sub-task succeeds with one record. -/
def oracleAllOk : QuizKind → Except CallFailure String
  | .multiple_choice => .ok "[\x7b\"question\": \"Q1\"\x7d]"
  | .fill_blank => .ok "[\x7b\"question\": \"Q2\"\x7d]"
  | .short_answer => .ok "[\x7b\"question\": \"Q3\"\x7d]"

/-- A backend service oracle that is never consulted successfully; used
to show validation outcomes are independent of the services. -/
def boracleUnused : BKind → Except String Json :=
  fun _ => .error "unused"

/-- Oracle on which multiple-choice and short-answer succeed and
fill-blank's completion call raises a timeout. -/
def oracleFbFails : QuizKind → Except CallFailure String
  | .multiple_choice => .ok "[\x7b\"q\": 1\x7d]"
  | .fill_blank => .error .timeout
  | .short_answer => .ok "[\x7b\"q\": 2\x7d]"

/-- Oracle on which multiple-choice succeeds while fill-blank's call
raises and short-answer's response carries no JSON: both siblings of
the multiple-choice sub-task fail. -/
def oracleBothFail : QuizKind → Except CallFailure String
  | .multiple_choice => .ok "[\x7b\"q\": 1\x7d]"
  | .fill_blank => .error .timeout
  | .short_answer => .ok "invalid"

/-- A backend service oracle whose flashcards call raises. -/
def boracleFlashErr : BKind → Except String Json
  | .flashcards => .error "boom"
  | .summary => .ok (.str "s")
  | .questions => .ok (.arr [])

/-- What an absorbed (non-propagating) sub-task contributes: its
extracted records when the call succeeded and extraction was non-empty,
nothing when the call raised or extraction was empty. -/
def absorbedRecords (resp : Except CallFailure String) : Option (List Json) :=
  match resp with
  | .error _ => none
  | .ok raw => if (parseJsonArrayL raw).isEmpty then none else some (parseJsonArrayL raw)

/-- The result-dictionary entries contributed by an absorbed sub-task. -/
def absorbedEntry (name : String) (resp : Except CallFailure String) :
    List (String × List Json) :=
  entryOf name (absorbedRecords resp)

/-- `_generate_flashcards_with_llm` (`api-gateway/main.py` lines
446-484): await the completion call and return `_parse_json_array` of
the response.  There is no check that any flashcard was extracted; a
raised completion call propagates. -/
def generateFlashcardsWithLLM (resp : Except CallFailure String) :
    Except String (List Json) :=
  match resp with
  | .error e => .error (ollamaFailMsg e)
  | .ok raw => .ok (parseJsonArrayL raw)

/-- The `/api/generate_flashcards` handler `generate_flashcards`
(`api-gateway/main.py` lines 233-256): the empty-text 400 raised inside
the `try` is re-wrapped as a 500 by the handler's blanket `except`
clause; otherwise the flashcards list - empty or not - is answered as a
success. -/
def generateFlashcards (text : String) (resp : Except CallFailure String) :
    Except (Nat × String) Json :=
  if (pyStrip text.toList).isEmpty then
    .error (500, "Error generating flashcards: 400: Text input is required")
  else
    match generateFlashcardsWithLLM resp with
    | .error m => .error (500, "Error generating flashcards: " ++ m)
    | .ok flashcards =>
      .ok (.obj [("success", .bool true), ("flashcards", .arr flashcards),
        ("message", .str "Flashcards generated successfully")])

/-- The window `_parse_json_array` slices out of the cleaned text is a
contiguous substring of it. -/
theorem windowOf_infixFact {s w : List Char} (h : windowOf s = some w) : w <:+: s := by
  unfold windowOf at h
  cases h1 : pyFindIdx '[' s with
  | none => rw [h1] at h; cases h
  | some i =>
    cases h2 : pyRFindIdx ']' s with
    | none => rw [h1, h2] at h; cases h
    | some j =>
      rw [h1, h2] at h
      dsimp only at h
      by_cases hij : i < j + 1
      · rw [if_pos hij] at h
        cases h
        exact ⟨s.take i, (s.drop i).drop (j + 1 - i), by
          rw [List.append_assoc, List.take_append_drop, List.take_append_drop]⟩
      · rw [if_neg hij] at h
        cases h

/-- If no substring of `s` parses as JSON, then in particular any given
contiguous substring of `s` fails to parse. -/
theorem noJsonSubstring_spec {s u : List Char} (h : noJsonSubstring s = true)
    (hu : u <:+: s) : jsonLoads u = none := by
  obtain ⟨t, hpu, hts⟩ := List.infix_iff_prefix_suffix.mp hu
  have h1 := List.all_eq_true.mp h t ((List.mem_tails t s).mpr hts)
  have h2 := List.all_eq_true.mp h1 u ((List.mem_inits u t).mpr hpu)
  simpa using h2

/-- A `filterMap` over a list on which the function always returns
`none` is empty. -/
theorem filterMap_isNone_eq_nil {α β : Type} {f : α → Option β} {l : List α}
    (h : (l.all fun o => (f o).isNone) = true) : l.filterMap f = [] := by
  induction l with
  | nil => rfl
  | cons a as ih =>
    simp only [List.all_cons, Bool.and_eq_true] at h
    rw [List.filterMap_cons]
    cases hf : f a with
    | some b => rw [hf] at h; simp at h
    | none => exact ih h.2

/-- Claim C3: for every raw model response whose cleaned text has a
first-`[`-to-last-`]` window that parses as a JSON array, the extractor
returns exactly that parsed array, order preserved, even when it is
empty. -/
theorem c3_extract_window (response : String) (w : List Char) (xs : List Json)
    (hw : windowOf (cleanResponse response) = some w)
    (hp : jsonLoads w = some (Json.arr xs)) :
    parseJsonArrayFn response = Json.arr xs := by
  simp only [parseJsonArrayFn, hw, hp]

/-- Witness for C3: a fenced response whose window is the whole array. -/
theorem c3_witness :
    windowOf (cleanResponse "```json\n[\x7b\"a\": 1\x7d]\n```") =
      some ("[\x7b\"a\": 1\x7d]".toList) ∧
    parseJsonArrayFn "```json\n[\x7b\"a\": 1\x7d]\n```" =
      Json.arr [Json.obj [("a", Json.num "1")]] :=
  ⟨rfl, c3_extract_window _ _ _ rfl rfl⟩

/-- Claim C2 (amended): for input text with no parseable JSON at all (no
contiguous substring of the cleaned text parses, and no flat-object
substring of the raw text parses), the gateway extractor
`_parse_json_array` returns the empty sequence; the no-fabrication
guarantee holds for this variant only (see the counterexample for the
backend variant). -/
theorem c2_amended (response : String)
    (h1 : noJsonSubstring (cleanResponse response) = true)
    (h2 : allFlatObjectsFail response = true) :
    parseJsonArrayFn response = Json.arr [] := by
  have hs : salvageObjects response = [] := filterMap_isNone_eq_nil h2
  cases hw : windowOf (cleanResponse response) with
  | some w =>
    have hwin : jsonLoads w = none := noJsonSubstring_spec h1 (windowOf_infixFact hw)
    simp only [parseJsonArrayFn, hw, hwin, hs]
  | none =>
    have hcl : jsonLoads (cleanResponse response) = none :=
      noJsonSubstring_spec h1 (List.infix_refl _)
    simp only [parseJsonArrayFn, hw, hcl, hs]

/-- Witness for C2: prose with no JSON anywhere yields the empty
sequence. -/
theorem c2_witness :
    noJsonSubstring (cleanResponse "hello world") = true ∧
    parseJsonArrayFn "hello world" = Json.arr [] :=
  ⟨by decide, c2_amended "hello world" (by decide) (by decide)⟩

/-- Counterexample to C2 as stated: on text with no parseable JSON at
all, the backend flashcard variant of the extractor does not return the
empty sequence - it fabricates a record whose `front` text the model
never emitted. -/
theorem c2_counterexample :
    backendParseFlashcards "This is not JSON" =
      Json.arr [Json.obj [("front", Json.str "Content from text"),
        ("back", Json.str "This is not JSON")]] ∧
    backendParseFlashcards "This is not JSON" ≠ Json.arr [] ∧
    noJsonSubstring ("This is not JSON".toList) = true := by
  refine ⟨rfl, ?_, by decide⟩
  intro h
  rw [show backendParseFlashcards "This is not JSON" =
    Json.arr [Json.obj [("front", Json.str "Content from text"),
      ("back", Json.str "This is not JSON")]] from rfl] at h
  injection h with h2
  exact List.cons_ne_nil _ _ h2

/-- Claim C4 (amended): whenever the `try` block of `_parse_json_array`
raises a decode error (the bracket window, or failing a window the
whole cleaned text, does not parse), the extractor returns exactly the
flat-object substrings of the raw response that parse, in order of
appearance, silently dropping the ones that fail.  (As originally
stated the claim also covered responses whose cleaned text parses
directly as a non-array JSON value; those return the empty sequence
instead - see the counterexample.) -/
theorem c4_amended (response : String) (h : tryBlockRaises response = true) :
    parseJsonArrayFn response =
      Json.arr ((pyFindAllFlatObjects response).filterMap jsonLoads) := by
  unfold tryBlockRaises at h
  cases hw : windowOf (cleanResponse response) with
  | some w =>
    rw [hw] at h
    simp only [parseJsonArrayFn, salvageObjects, hw, Option.isNone_iff_eq_none.mp h]
  | none =>
    rw [hw] at h
    simp only [parseJsonArrayFn, salvageObjects, hw, Option.isNone_iff_eq_none.mp h]

/-- Witness for C4: a response with a broken record among a good one. -/
theorem c4_witness :
    tryBlockRaises "junk \x7b\"a\": 1\x7d more \x7b\"b\": \x7d end" = true ∧
    parseJsonArrayFn "junk \x7b\"a\": 1\x7d more \x7b\"b\": \x7d end" =
      Json.arr ((pyFindAllFlatObjects "junk \x7b\"a\": 1\x7d more \x7b\"b\": \x7d end").filterMap jsonLoads) ∧
    (pyFindAllFlatObjects "junk \x7b\"a\": 1\x7d more \x7b\"b\": \x7d end").filterMap jsonLoads =
      [Json.obj [("a", Json.num "1")]] :=
  ⟨by decide, c4_amended _ (by decide), rfl⟩

/-- Counterexample to C4 as stated: `\x7b"a": 1\x7d` contains no JSON
array and exactly one syntactically valid flat object substring, yet
the extractor returns the empty sequence rather than that object,
because the cleaned text parses directly as a (non-array) JSON value
and the salvage fallback is never reached. -/
theorem c4_counterexample :
    parseJsonArrayFn "\x7b\"a\": 1\x7d" = Json.arr [] ∧
    (pyFindAllFlatObjects "\x7b\"a\": 1\x7d").filterMap jsonLoads =
      [Json.obj [("a", Json.num "1")]] ∧
    parseJsonArrayFn "\x7b\"a\": 1\x7d" ≠
      Json.arr [Json.obj [("a", Json.num "1")]] := by
  refine ⟨rfl, rfl, ?_⟩
  intro h
  rw [show parseJsonArrayFn "\x7b\"a\": 1\x7d" = Json.arr [] from rfl] at h
  injection h with h2
  exact List.cons_ne_nil _ _ h2.symm

/-- Claim C10: fence stripping is gated on the trimmed response
beginning with a fence delimiter - when it does not, no stripping occurs
at all (first conjunct); when it does, the substitution is global, so a
fence sequence inside a record's string value is also deleted before
parsing (second and third conjuncts: the value `x```json y` comes out
as `xy`). -/
theorem c10_fence_handling :
    (∀ s : String, ("```".toList).isPrefixOf (pyStrip s.toList) = false →
      cleanResponse s = pyStrip s.toList) ∧
    cleanResponse "```json\n[\"x```json y\"]\n```" = "[\"xy\"]".toList ∧
    parseJsonArrayFn "```json\n[\"x```json y\"]\n```" = Json.arr [Json.str "xy"] := by
  refine ⟨fun s h => ?_, rfl, rfl⟩
  simp only [cleanResponse, h, Bool.false_eq_true, if_false]

/-- Witness for C10: a response with a fenced block that does not start
the text is left exactly as stripped. -/
theorem c10_witness :
    cleanResponse "see ```json\n[1]\n``` end" =
      pyStrip "see ```json\n[1]\n``` end".toList :=
  c10_fence_handling.1 _ (by decide)

/-- Claim C5 (amended): the gateway completion client classifies an
empty-after-trimming response body of a successful HTTP exchange as an
`empty-response` failure and never returns an empty success; the
backend variant, by contrast, returns the trimmed empty string as
success (see the counterexample). -/
theorem c5_amended :
    (∀ (code : Nat) (body : String), 200 ≤ code → code < 300 →
      (pyStrip body.toList).isEmpty = true →
      gatewayCallOllama (.status code body) = .error .emptyResponse) ∧
    (∀ (h : HttpOutcome) (s : String), gatewayCallOllama h = .ok s → s ≠ "") := by
  constructor
  · intro code body hlo hhi hempty
    unfold gatewayCallOllama
    have hc : (decide (code < 200) || decide (300 ≤ code)) = false := by
      simp only [Bool.or_eq_false_iff, decide_eq_false_iff_not]
      omega
    simp only [hc, Bool.false_eq_true, if_false, hempty, if_true]
  · intro h s hok
    cases h with
    | timeout => cases hok
    | connectError => cases hok
    | requestError => cases hok
    | status code body =>
      simp only [gatewayCallOllama] at hok
      by_cases hc : (decide (code < 200) || decide (300 ≤ code)) = true
      · rw [if_pos hc] at hok; cases hok
      · rw [if_neg hc] at hok
        cases hempty : (pyStrip body.toList).isEmpty with
        | true => rw [hempty] at hok; simp at hok
        | false =>
          rw [hempty] at hok
          simp only [if_false, Bool.false_eq_true] at hok
          cases hok
          intro hcontra
          have : pyStrip body.toList = [] := by
            have := congrArg String.data hcontra
            simpa using this
          rw [this] at hempty
          simp at hempty

/-- Witness for C5: a successful exchange whose body is whitespace only
is classified as `empty-response`. -/
theorem c5_witness :
    gatewayCallOllama (.status 200 "  ") = .error .emptyResponse :=
  c5_amended.1 200 "  " (by norm_num) (by norm_num) (by decide)

/-- Counterexample to C5 as stated: the backend completion client
returns the empty string as a successful result for a well-formed
exchange with an empty body, so a caller of that variant does receive
the empty string as valid generated content. -/
theorem c5_counterexample :
    backendCallOllama (.status 200 "") = .ok "" ∧
    gatewayCallOllama (.status 200 "") = .error .emptyResponse :=
  ⟨rfl, rfl⟩

/-- Claim C6 (amended): both banded kinds (multiple-choice and
flashcards) pick their target range from the same four length bands
≤3000 / ≤5000 / ≤10000 / >10000, and each longer band's range has
strictly larger lower and upper bounds (though not always a strictly
wider span, and the fill-blank and short-answer kinds use a fixed
`5-7` - see the counterexample). -/
theorem c6_amended :
    (∀ n, numQuestionsStr n = showRange (quizRange (sizeBand n)) ∧
      numFlashcardsStr n = showRange (flashRange (sizeBand n))) ∧
    (∀ b, b < 3 → (quizRange b).1 < (quizRange (b + 1)).1 ∧
      (quizRange b).2 < (quizRange (b + 1)).2 ∧
      (flashRange b).1 < (flashRange (b + 1)).1 ∧
      (flashRange b).2 < (flashRange (b + 1)).2) := by
  constructor
  · intro n
    constructor <;>
      · simp only [numQuestionsStr, numFlashcardsStr, sizeBand]
        split_ifs <;> first | rfl | omega
  · intro b hb
    interval_cases b <;> exact ⟨by decide, by decide, by decide, by decide⟩

/-- Witness for C6: a short text sits in band 0 and the bands' ranges
rise. -/
theorem c6_witness :
    numQuestionsStr 42 = showRange (quizRange (sizeBand 42)) ∧
    (quizRange 0).1 < (quizRange 1).1 :=
  ⟨(c6_amended.1 42).1, (c6_amended.2 0 (by norm_num)).1⟩

/-- Counterexample to C6 as stated: the fill-blank kind's target count
is the constant `5-7` for every input length (its prompt is not banded
at all), and for flashcards the ≤5000 band's range `12-15` is narrower
than the ≤3000 band's `8-12`, so a longer band does not always map to a
wider range. -/
theorem c6_counterexample :
    targetCountStr .fill_blank 100 = "5-7" ∧
    targetCountStr .fill_blank 20000 = "5-7" ∧
    targetCountStr .multiple_choice 100 = "5-8" ∧
    targetCountStr .multiple_choice 20000 = "12-18" ∧
    numFlashcardsStr 1000 = "8-12" ∧
    numFlashcardsStr 4000 = "12-15" ∧
    sizeBand 1000 < sizeBand 4000 ∧
    (flashRange (sizeBand 4000)).2 - (flashRange (sizeBand 4000)).1 <
      (flashRange (sizeBand 1000)).2 - (flashRange (sizeBand 1000)).1 := by
  decide

/-- Claim C9 (amended): for an `all` request the orchestrator issues its
three sub-tasks' completion calls sequentially, each awaited to
completion before the next is issued (in the order multiple-choice,
fill-blank, short-answer), not concurrently and jointly awaited. -/
theorem c9_amended (oracle : QuizKind → Except CallFailure String) (r1 r2 r3 : String)
    (h1 : oracle .multiple_choice = .ok r1) (hp1 : (parseJsonArrayL r1).isEmpty = false)
    (h2 : oracle .fill_blank = .ok r2) (hp2 : (parseJsonArrayL r2).isEmpty = false)
    (h3 : oracle .short_answer = .ok r3) (hp3 : (parseJsonArrayL r3).isEmpty = false) :
    (generateQuizWithLLM "all" oracle).2 =
      [.issue .multiple_choice, .complete .multiple_choice, .issue .fill_blank,
        .complete .fill_blank, .issue .short_answer, .complete .short_answer] := by
  simp [generateQuizWithLLM, subTaskRun, entryOf, h1, h2, h3, hp1, hp2, hp3]

/-- Witness for C9 (amended): the concrete all-success run produces the
sequential trace. -/
theorem c9_witness :
    (generateQuizWithLLM "all" oracleAllOk).2 =
      [.issue .multiple_choice, .complete .multiple_choice, .issue .fill_blank,
        .complete .fill_blank, .issue .short_answer, .complete .short_answer] :=
  c9_amended oracleAllOk _ _ _ rfl rfl rfl rfl rfl rfl

/-- Counterexample to C9 as stated: in the all-success run the first
sub-task's call completes before the second is issued, so the calls
were not issued together and awaited jointly. -/
theorem c9_counterexample :
    (generateQuizWithLLM "all" oracleAllOk).2 =
      [.issue .multiple_choice, .complete .multiple_choice, .issue .fill_blank,
        .complete .fill_blank, .issue .short_answer, .complete .short_answer] ∧
    issuedJointly (generateQuizWithLLM "all" oracleAllOk).2 = false :=
  ⟨rfl, rfl⟩

/-- Claim C7 (amended): for each of the three single-kind quiz requests
(multiple_choice, fill_blank, short_answer), a sub-task whose
completion succeeds but whose extraction yields zero records makes
`generate_quiz` answer with a 500 failure, never a success carrying an
empty list.  The single-kind flashcards request, by contrast, performs
no emptiness check and answers a zero-record extraction with a success
carrying the empty list. -/
theorem c7_amended :
    (∀ (text : String) (oracle : QuizKind → Except CallFailure String) (raw : String),
      (pyStrip text.toList).isEmpty = false →
      oracle .multiple_choice = .ok raw → (parseJsonArrayL raw).isEmpty = true →
      generateQuiz text "multiple_choice" oracle =
        (.error (500, "Error generating quiz: " ++ mcEmptyMsg),
          [.issue .multiple_choice, .complete .multiple_choice])) ∧
    (∀ (text : String) (oracle : QuizKind → Except CallFailure String) (raw : String),
      (pyStrip text.toList).isEmpty = false →
      oracle .fill_blank = .ok raw → (parseJsonArrayL raw).isEmpty = true →
      generateQuiz text "fill_blank" oracle =
        (.error (500, "Error generating quiz: " ++ fbEmptyMsg),
          [.issue .fill_blank, .complete .fill_blank])) ∧
    (∀ (text : String) (oracle : QuizKind → Except CallFailure String) (raw : String),
      (pyStrip text.toList).isEmpty = false →
      oracle .short_answer = .ok raw → (parseJsonArrayL raw).isEmpty = true →
      generateQuiz text "short_answer" oracle =
        (.error (500, "Error generating quiz: " ++ saEmptyMsg),
          [.issue .short_answer, .complete .short_answer])) ∧
    (∀ (text raw : String), (pyStrip text.toList).isEmpty = false →
      (parseJsonArrayL raw).isEmpty = true →
      generateFlashcards text (.ok raw) =
        .ok (.obj [("success", .bool true), ("flashcards", .arr []),
          ("message", .str "Flashcards generated successfully")])) := by
  refine ⟨fun text oracle raw ht ho hp => ?_, fun text oracle raw ht ho hp => ?_,
    fun text oracle raw ht ho hp => ?_, fun text raw ht hp => ?_⟩
  · have hlow : pyLower "multiple_choice" = "multiple_choice" := rfl
    have hmem : ("multiple_choice" : String) ∈ validQuizTypes := by decide
    have hne : ¬pyStrip text.data = [] := List.isEmpty_eq_false.mp ht
    simp [generateQuiz, hlow, hmem, hne, generateQuizWithLLM, subTaskRun, ho, hp]
  · have hlow : pyLower "fill_blank" = "fill_blank" := rfl
    have hmem : ("fill_blank" : String) ∈ validQuizTypes := by decide
    have hne : ¬pyStrip text.data = [] := List.isEmpty_eq_false.mp ht
    simp [generateQuiz, hlow, hmem, hne, generateQuizWithLLM, subTaskRun, ho, hp]
  · have hlow : pyLower "short_answer" = "short_answer" := rfl
    have hmem : ("short_answer" : String) ∈ validQuizTypes := by decide
    have hne : ¬pyStrip text.data = [] := List.isEmpty_eq_false.mp ht
    simp [generateQuiz, hlow, hmem, hne, generateQuizWithLLM, subTaskRun, ho, hp]
  · have hne : ¬pyStrip text.data = [] := List.isEmpty_eq_false.mp ht
    simp [generateFlashcards, generateFlashcardsWithLLM, hne, List.isEmpty_iff.mp hp]

/-- Witness for C7 (amended): one prose response with no JSON exercised
through each of the three quiz kinds and the flashcards kind. -/
theorem c7_witness :
    (parseJsonArrayL "no json").isEmpty = true ∧
    generateQuiz "T" "multiple_choice" (fun _ => .ok "no json") =
      (.error (500, "Error generating quiz: " ++ mcEmptyMsg),
        [.issue .multiple_choice, .complete .multiple_choice]) ∧
    generateQuiz "T" "fill_blank" (fun _ => .ok "no json") =
      (.error (500, "Error generating quiz: " ++ fbEmptyMsg),
        [.issue .fill_blank, .complete .fill_blank]) ∧
    generateQuiz "T" "short_answer" (fun _ => .ok "no json") =
      (.error (500, "Error generating quiz: " ++ saEmptyMsg),
        [.issue .short_answer, .complete .short_answer]) ∧
    generateFlashcards "T" (.ok "no json") =
      .ok (.obj [("success", .bool true), ("flashcards", .arr []),
        ("message", .str "Flashcards generated successfully")]) :=
  ⟨rfl, c7_amended.1 "T" _ "no json" (by decide) rfl rfl,
   c7_amended.2.1 "T" _ "no json" (by decide) rfl rfl,
   c7_amended.2.2.1 "T" _ "no json" (by decide) rfl rfl,
   c7_amended.2.2.2 "T" "no json" (by decide) rfl⟩

/-- Counterexample to C7 as stated: the flashcards request names
exactly one kind, yet a completion whose extraction yields zero records
is answered with a success carrying an empty list, not a failure. -/
theorem c7_counterexample :
    parseJsonArrayL "no records here" = [] ∧
    generateFlashcards "T" (.ok "no records here") =
      .ok (.obj [("success", .bool true), ("flashcards", .arr []),
        ("message", .str "Flashcards generated successfully")]) :=
  ⟨rfl, rfl⟩

/-- Claim C8 (amended): the gateway handler rejects empty-after-trim
text and unknown quiz kinds with a 400 before any completion call (the
event trace is empty).  The backend handler rejects empty text before
any service call (surfaced as a 500, because its blanket exception
handler re-wraps the 400), but it never validates the content type: a
kind outside the closed set yields a success with empty content,
contacting no service, rather than an InvalidRequest rejection. -/
theorem c8_amended :
    (∀ (text quizType : String) (oracle : QuizKind → Except CallFailure String),
      (pyStrip text.toList).isEmpty = true ∨
        validQuizTypes.contains (pyLower quizType) = false →
      ∃ msg, generateQuiz text quizType oracle = (.error (400, msg), [])) ∧
    (∀ (text contentType : String) (boracle : BKind → Except String Json),
      (pyStrip text.toList).isEmpty = true →
      generateContent text contentType boracle =
        (.error (500, "Error generating content: 400: Text input is required"), [])) ∧
    (∀ (text contentType : String) (boracle : BKind → Except String Json),
      (pyStrip text.toList).isEmpty = false →
      (contentType == "flashcards") = false → (contentType == "summary") = false →
      (contentType == "questions") = false → (contentType == "all") = false →
      generateContent text contentType boracle =
        (.ok (.obj [("success", .bool true), ("content", .obj []),
          ("message", .str "Content generated successfully")]), [])) := by
  refine ⟨fun text quizType oracle h => ?_, fun text contentType boracle h => ?_,
    fun text contentType boracle h hf hs hq ha => ?_⟩
  · cases he : (pyStrip text.toList).isEmpty with
    | true =>
      refine ⟨"Text input is required", ?_⟩
      have he2 : pyStrip text.data = [] := List.isEmpty_iff.mp he
      simp [generateQuiz, he2]
    | false =>
      rcases h with h | h
      · rw [he] at h; cases h
      · refine ⟨"Invalid quiz_type. Must be one of: multiple_choice, fill_blank, short_answer, all", ?_⟩
        have hne : ¬pyStrip text.data = [] := List.isEmpty_eq_false.mp he
        have hnm : ¬pyLower quizType ∈ validQuizTypes := by
          intro hm
          rw [List.contains_eq_any_beq] at h
          have : validQuizTypes.any (pyLower quizType == ·) = true :=
            List.any_eq_true.mpr ⟨pyLower quizType, hm, by simp⟩
          rw [this] at h
          cases h
        simp [generateQuiz, hne, hnm]
  · have h2 : pyStrip text.data = [] := List.isEmpty_iff.mp h
    simp [generateContent, h2]
  · have hne : ¬pyStrip text.data = [] := List.isEmpty_eq_false.mp h
    rw [beq_eq_false_iff_ne] at hf hs hq ha
    simp [generateContent, hne, hf, hs, hq, ha]

/-- Witness for C8 (amended): whitespace text and a bogus quiz type are
both turned away by the gateway with no call made, and the backend
answers a bogus content type with an empty success and no call made. -/
theorem c8_witness :
    (∃ msg, generateQuiz "   " "all" oracleAllOk = (.error (400, msg), [])) ∧
    (∃ msg, generateQuiz "hello" "bogus" oracleAllOk = (.error (400, msg), [])) ∧
    generateContent "hello" "bogus" boracleUnused =
      (.ok (.obj [("success", .bool true), ("content", .obj []),
        ("message", .str "Content generated successfully")]), []) :=
  ⟨c8_amended.1 "   " "all" oracleAllOk (Or.inl (by decide)),
   c8_amended.1 "hello" "bogus" oracleAllOk (Or.inr (by decide)),
   c8_amended.2.2 "hello" "bogus" boracleUnused (by decide) rfl rfl rfl rfl⟩

/-- Counterexample to C8 as stated: a backend request with non-empty
text and the kind `bogus`, outside the closed set, is not rejected as an
InvalidRequest: the handler returns a success with empty content (it
does contact no external service - the call list is empty - but the
claim's rejection does not happen). -/
theorem c8_counterexample :
    validQuizTypes.contains "bogus" = false ∧
    generateContent "hello" "bogus" boracleUnused =
      (.ok (.obj [("success", .bool true), ("content", .obj []),
        ("message", .str "Content generated successfully")]), []) := by
  exact ⟨rfl, rfl⟩

/-- A non-propagating sub-task (fill-blank or short-answer under `all`)
always returns `ok`, contributing exactly its absorbed records: any
failure, raised call or empty extraction, is swallowed. -/
theorem subTaskRun_absorb (k : QuizKind) (resp : Except CallFailure String) (msg : String) :
    subTaskRun k false resp msg =
      (.ok (absorbedRecords resp),
        [.issue k, match resp with | .error _ => Event.fail k | .ok _ => Event.complete k]) := by
  cases resp with
  | error e => simp [subTaskRun, absorbedRecords]
  | ok raw => cases hp : (parseJsonArrayL raw).isEmpty <;> simp [subTaskRun, absorbedRecords, hp]

/-- A sub-task whose completion succeeds with a non-empty extraction
contributes its records, whatever its except-policy. -/
theorem subTaskRun_ok_nonempty (k : QuizKind) (p : Bool) (raw msg : String)
    (hp : (parseJsonArrayL raw).isEmpty = false) :
    subTaskRun k p (.ok raw) msg =
      (.ok (some (parseJsonArrayL raw)), [.issue k, .complete k]) := by
  simp [subTaskRun, hp]

/-- Claim C1 (amended): for an `all` request, when the multiple-choice
sub-task succeeds with a non-empty extraction, any combination of
fill-blank and short-answer failures - a raised completion call or an
empty extraction, for either or both - is absorbed: the aggregate
succeeds and contains exactly the kinds that succeeded non-empty.  A
multiple-choice sub-task failure, however, re-raises unconditionally
and fails the whole aggregate even when its siblings would succeed.
In the backend variant, any sub-task failure under `all` fails the
whole aggregate. -/
theorem c1_amended :
    (∀ (oracle : QuizKind → Except CallFailure String) (r1 : String),
      oracle .multiple_choice = .ok r1 → (parseJsonArrayL r1).isEmpty = false →
      (generateQuizWithLLM "all" oracle).1 =
        .ok ([("multiple_choice", parseJsonArrayL r1)] ++
          absorbedEntry "fill_blank" (oracle .fill_blank) ++
          absorbedEntry "short_answer" (oracle .short_answer))) ∧
    (∀ oracle : QuizKind → Except CallFailure String,
      ((∃ e, oracle .multiple_choice = .error e) ∨
        (∃ r, oracle .multiple_choice = .ok r ∧ (parseJsonArrayL r).isEmpty = true)) →
      ∃ m, (generateQuizWithLLM "all" oracle).1 = .error m) ∧
    (∀ (text : String) (boracle : BKind → Except String Json),
      (pyStrip text.toList).isEmpty = false →
      (∀ e, boracle .flashcards = .error e →
        (generateContent text "all" boracle).1 =
          .error (500, "Error generating content: " ++ e)) ∧
      (∀ v1 e, boracle .flashcards = .ok v1 → boracle .summary = .error e →
        (generateContent text "all" boracle).1 =
          .error (500, "Error generating content: " ++ e)) ∧
      (∀ v1 v2 e, boracle .flashcards = .ok v1 → boracle .summary = .ok v2 →
        boracle .questions = .error e →
        (generateContent text "all" boracle).1 =
          .error (500, "Error generating content: " ++ e))) := by
  refine ⟨fun oracle r1 h1 hp1 => ?_, fun oracle hmc => ?_,
    fun text boracle ht =>
      ⟨fun e he => ?_, fun v1 e hv1 he => ?_, fun v1 v2 e hv1 hv2 he => ?_⟩⟩
  · simp [generateQuizWithLLM, h1, subTaskRun_ok_nonempty _ _ _ _ hp1, subTaskRun_absorb,
      entryOf, absorbedEntry, hp1]
  · rcases hmc with ⟨e, he⟩ | ⟨r, hr, hpr⟩
    · exact ⟨ollamaFailMsg e, by simp [generateQuizWithLLM, subTaskRun, he]⟩
    · exact ⟨mcEmptyMsg, by simp [generateQuizWithLLM, subTaskRun, hr, hpr]⟩
  · have hne : ¬pyStrip text.data = [] := List.isEmpty_eq_false.mp ht
    simp [generateContent, hne, he, Except.map]
  · have hne : ¬pyStrip text.data = [] := List.isEmpty_eq_false.mp ht
    simp [generateContent, hne, hv1, he, Except.map]
  · have hne : ¬pyStrip text.data = [] := List.isEmpty_eq_false.mp ht
    simp [generateContent, hne, hv1, hv2, he, Except.map]

/-- Witness for C1 (amended): with a timed-out fill-blank call the
aggregate succeeds with the two sibling kinds; with both siblings
failing it succeeds with multiple-choice alone; with an empty
multiple-choice extraction it fails; and a backend flashcards failure
under `all` fails the backend aggregate. -/
theorem c1_witness :
    (generateQuizWithLLM "all" oracleFbFails).1 =
      .ok ([("multiple_choice", parseJsonArrayL "[\x7b\"q\": 1\x7d]")] ++
        absorbedEntry "fill_blank" (oracleFbFails .fill_blank) ++
        absorbedEntry "short_answer" (oracleFbFails .short_answer)) ∧
    (generateQuizWithLLM "all" oracleBothFail).1 =
      .ok ([("multiple_choice", parseJsonArrayL "[\x7b\"q\": 1\x7d]")] ++
        absorbedEntry "fill_blank" (oracleBothFail .fill_blank) ++
        absorbedEntry "short_answer" (oracleBothFail .short_answer)) ∧
    (∃ m, (generateQuizWithLLM "all" oracleC1).1 = .error m) ∧
    (generateContent "hello" "all" boracleFlashErr).1 =
      .error (500, "Error generating content: boom") :=
  ⟨c1_amended.1 oracleFbFails "[\x7b\"q\": 1\x7d]" rfl rfl,
   c1_amended.1 oracleBothFail "[\x7b\"q\": 1\x7d]" rfl rfl,
   c1_amended.2.1 oracleC1 (Or.inr ⟨"The quiz is ready.", rfl, rfl⟩),
   (c1_amended.2.2 "hello" boracleFlashErr (by decide)).1 "boom" rfl⟩

/-- Counterexample to C1 as stated: the multiple-choice sub-task's
response carries no JSON (its extraction is empty, a sub-task failure)
while both sibling sub-tasks' responses parse to non-empty record
lists, yet the `all` aggregate fails: the multiple-choice failure
blocked its siblings. -/
theorem c1_counterexample :
    (generateQuizWithLLM "all" oracleC1).1 = .error mcEmptyMsg ∧
    (parseJsonArrayL "The quiz is ready.").isEmpty = true ∧
    (parseJsonArrayL
      "[\x7b\"question\": \"Water is _____.\", \"answer\": \"wet\"\x7d]").isEmpty = false ∧
    (parseJsonArrayL
      "[\x7b\"question\": \"Why?\", \"answer\": \"Because.\"\x7d]").isEmpty = false :=
  ⟨rfl, rfl, rfl, rfl⟩
